import Mathlib

/-!
Shallow embedding of the sudo_pair boundary layer: the error taxonomy and its
fail-closed mapping to sudo plugin result codes (src/sudo_plugin/src/errors.rs,
src/sudo_pair/src/errors.rs), and the plugin context with its derived-fact
computations (src/sudo_plugin/src/plugin/mod.rs).

Numeric group ids (gid_t) are modelled as Nat; byte strings as List Nat.
-/

namespace SudoPair

/-- Modelled from the spec: the `sudo_plugin_sys` constants are not under
src/; the integer codes follow the sudo plugin API as documented in
src/sudo_plugin/src/errors.rs lines 63-68 (open: 1 success, 0 failure,
-1 general error, -2 usage error) and the spec's outbound interface
(log: ok / reject / error). -/
def SUDO_PLUGIN_OPEN_SUCCESS : Int := 1

/-- Failure code for the `open` callback. -/
def SUDO_PLUGIN_OPEN_FAILURE : Int := 0

/-- General-error code for the `open` callback. -/
def SUDO_PLUGIN_OPEN_GENERAL_ERROR : Int := -1

/-- Usage-error code for the `open` callback. -/
def SUDO_PLUGIN_OPEN_USAGE_ERROR : Int := -2

/-- Ok code for the `log_*` callbacks. -/
def SUDO_PLUGIN_LOG_OK : Int := 1

/-- Reject code for the `log_*` callbacks. -/
def SUDO_PLUGIN_LOG_REJECT : Int := 0

/-- Error code for the `log_*` callbacks. -/
def SUDO_PLUGIN_LOG_ERROR : Int := -1

/-- Modelled from the spec: `version.rs` is not under src/. A version is a
major/minor pair decoded from the packed integer the host advertises. -/
structure Version where
  major : Nat
  minor : Nat
deriving DecidableEq, Repr

/-- Modelled from the spec: the statically known minimum API version the
plugin requires. The spec fixes only that such a minimum exists; the value
1.2 of its §8 example is used here (the claims do not depend on the value). -/
def Version.minimum : Version := Version.mk 1 2

/-- Modelled from the spec: decode the packed major/minor integer per the
host's convention (major in the high 16 bits, minor in the low 16 bits). -/
def Version.fromPacked (v : Nat) : Version :=
  Version.mk (v / 65536) (v % 65536)

/-- Lexicographic strict order on versions. -/
def Version.ltb (a b : Version) : Bool :=
  a.major < b.major || (a.major == b.major && a.minor < b.minor)

/-- Rendering of a version as `major.minor`, as used in diagnostics. -/
def Version.toStr (v : Version) : String :=
  toString v.major ++ "." ++ toString v.minor

/-- The `ErrorKind` generated by the `error_chain!` block in
src/sudo_plugin/src/errors.rs. `error_chain` adds a catch-all `Msg` variant
alongside the three declared kinds; `Uninit` models the declared kind named
`Uninitialized` in the source. -/
inductive ErrorKind where
  | Msg (s : String)
  | UnsupportedApiVersion (cur : Version)
  | Uninit
  | Unauthorized
deriving DecidableEq

/-- The `display` strings of src/sudo_plugin/src/errors.rs lines 38-55. -/
def ErrorKind.display : ErrorKind → String
  | ErrorKind.Msg s => s
  | ErrorKind.UnsupportedApiVersion cur =>
      "sudo called this plugin with an API version of " ++ cur.toStr ++
      ", but a minimum of " ++ Version.minimum.toStr ++ " is required"
  | ErrorKind.Uninit => "the plugin failed to initialize"
  | ErrorKind.Unauthorized => "command unauthorized"

/-- An `error_chain` error: a kind plus its causal chain (the chain is kept
for diagnostics only; modelled as the chained errors' display texts). -/
structure Error where
  kind : ErrorKind
  chain : List String
deriving DecidableEq

/-- src/sudo_plugin/src/errors.rs lines 96-101: the `open` retval of an
`Error`. The match is on the kind, with a wildcard second arm. -/
def Error.as_sudo_io_plugin_open_retval (e : Error) : Int :=
  match e.kind with
  | ErrorKind.Unauthorized => SUDO_PLUGIN_OPEN_GENERAL_ERROR
  | _ => SUDO_PLUGIN_OPEN_FAILURE

/-- src/sudo_plugin/src/errors.rs lines 103-108: the `log_*` retval of an
`Error`. -/
def Error.as_sudo_io_plugin_log_retval (e : Error) : Int :=
  match e.kind with
  | ErrorKind.Unauthorized => SUDO_PLUGIN_LOG_REJECT
  | _ => SUDO_PLUGIN_LOG_ERROR

/-- src/sudo_plugin/src/errors.rs lines 80-85: the `open` retval of a
`Result`; `Ok` maps to success, `Err` defers to the error. -/
def Result.as_sudo_io_plugin_open_retval {T : Type} : Except Error T → Int
  | Except.ok _ => SUDO_PLUGIN_OPEN_SUCCESS
  | Except.error e => e.as_sudo_io_plugin_open_retval

/-- src/sudo_plugin/src/errors.rs lines 87-92: the `log_*` retval of a
`Result`. -/
def Result.as_sudo_io_plugin_log_retval {T : Type} : Except Error T → Int
  | Except.ok _ => SUDO_PLUGIN_LOG_OK
  | Except.error e => e.as_sudo_io_plugin_log_retval

/-- The pairing extension's closed error-kind set,
src/sudo_pair/src/errors.rs lines 28-34. -/
inductive PairErrorKind where
  | CommunicationError
  | SessionDeclined
  | SessionTerminated
  | StdinRedirected
  | SudoToUserAndGroup
deriving DecidableEq

/-- src/sudo_pair/src/errors.rs lines 37-45: the display text of each kind. -/
def PairErrorKind.as_str : PairErrorKind → String
  | PairErrorKind.CommunicationError =>
      "couldn't establish communications with the pair"
  | PairErrorKind.SessionDeclined => "pair declined the session"
  | PairErrorKind.SessionTerminated => "pair ended the session"
  | PairErrorKind.StdinRedirected =>
      "redirection of stdin to paired sessions is prohibited"
  | PairErrorKind.SudoToUserAndGroup =>
      "the -u and -g options may not both be specified"

/-- The pairing extension's `Error`: a `Context<ErrorKind>`, i.e. a kind plus
attached diagnostic context (src/sudo_pair/src/errors.rs lines 54-57). -/
structure PairError where
  kind : PairErrorKind
  ctx : List String
deriving DecidableEq

/-- src/sudo_pair/src/errors.rs lines 84-91: `From<Error> for SudoPluginError`
builds the host-facing error with kind `Unauthorized`, chaining the original
error for diagnostics only. -/
def PairError.toSudoPluginError (e : PairError) : Error :=
  Error.mk ErrorKind.Unauthorized (e.kind.as_str :: e.ctx)

/-- src/sudo_pair/src/errors.rs lines 97-101: converting directly from a
kind wraps it in a fresh `Error` first. -/
def PairErrorKind.toSudoPluginError (k : PairErrorKind) : Error :=
  (PairError.mk k []).toSudoPluginError

/-- The fields of `Settings` used by src/sudo_plugin/src/plugin/mod.rs:
the program name (as bytes) and the reconstructed invocation flags.
`settings.rs` itself is not under src/; `flags()` is modelled as the list of
flag byte-strings it yields (the spec's ordered flags, §4.4). -/
structure Settings where
  progname : List Nat
  flags : List (List Nat)
deriving DecidableEq

/-- The fields of `UserInfo` used by src/sudo_plugin/src/plugin/mod.rs: the
invoking user's group set and its mandatory working directory
(`user_info.rs` itself is not under src/). -/
structure UserInfo where
  groups : List Nat
  cwd : String
deriving DecidableEq

/-- The fields of `CommandInfo` used by src/sudo_plugin/src/plugin/mod.rs:
runas effective gid, the optional explicit runas group set, the
preserve-groups flag, and the optional cwd override (`command_info.rs`
itself is not under src/). -/
structure CommandInfo where
  runas_egid : Nat
  runas_groups : Option (List Nat)
  preserve_groups : Bool
  cwd : Option String
deriving DecidableEq

/-- The plugin context (src/sudo_plugin/src/plugin/mod.rs lines 51-96),
restricted to the fields the derived-fact computations read. -/
structure Plugin where
  version : Version
  command : List (List Nat)
  settings : Settings
  user_info : UserInfo
  command_info : CommandInfo
deriving DecidableEq

/-- src/sudo_plugin/src/plugin/mod.rs lines 224-228: the cwd for the command
being run, `command_info.cwd` overriding `user_info.cwd`. -/
def Plugin.cwd (p : Plugin) : String :=
  p.command_info.cwd.getD p.user_info.cwd

/-- src/sudo_plugin/src/plugin/mod.rs lines 239-264 (release semantics, the
`debug_assert!` lines compiled out): the base set is `runas_groups` when
present, else the user's groups, and `runas_egid` is inserted into it. -/
def Plugin.runas_gids (p : Plugin) : Finset Nat :=
  insert p.command_info.runas_egid
    (p.command_info.runas_groups.getD p.user_info.groups).toFinset

/-- src/sudo_plugin/src/plugin/mod.rs lines 239-264 with the two
`debug_assert!` sanity checks (lines 242-246) kept: when `debug_assertions`
is on and a check fails the function aborts (`none`); otherwise it returns
`runas_gids`. Release builds compile the checks out (`debug_assertions` off). -/
def Plugin.runas_gids_checked (p : Plugin) (debug_assertions : Bool) :
    Option (Finset Nat) :=
  if debug_assertions &&
      (if p.command_info.preserve_groups
        then p.command_info.runas_groups.isSome
        else p.command_info.runas_groups.isNone)
    then none
    else some p.runas_gids

/-- The byte-slice `join` used at src/sudo_plugin/src/plugin/mod.rs line 207:
concatenates the pieces with a single separator byte between neighbours. -/
def joinBytes (sep : Nat) : List (List Nat) → List Nat
  | [] => []
  | [f] => f
  | f :: g :: rest => f ++ sep :: joinBytes sep (g :: rest)

/-- src/sudo_plugin/src/plugin/mod.rs lines 201-216: the reconstructed
invocation. Starts from the program name; when flags are non-empty appends a
space byte (32) and the space-joined flags; then appends a space byte and the
entry for each command argument. -/
def Plugin.invocation (p : Plugin) : List Nat :=
  let base := p.settings.progname
  let withFlags :=
    if p.settings.flags.isEmpty
      then base
      else base ++ [32] ++ joinBytes 32 p.settings.flags
  withFlags ++ (p.command.map (fun entry => [32] ++ entry)).flatten

/-- Modelled from the spec: `Version::check` (version.rs, not under src/)
compares the decoded version against the fixed minimum, failing with
`UnsupportedApiVersion` carrying the offending version (the payload is the
current version, per src/sudo_plugin/src/errors.rs line 38). -/
def Version.check (v : Version) : Except Error Version :=
  if Version.ltb v Version.minimum
    then Except.error (Error.mk (ErrorKind.UnsupportedApiVersion v) [])
    else Except.ok v

/-- src/sudo_plugin/src/plugin/mod.rs lines 110-160: `Plugin::new` checks
the advertised API version first (line 126, with `?` returning early), then
assembles the context from the three typed-extraction results. The extractors
live in files not under src/, so their outcomes are taken as arguments: the
theorems below quantify over them. -/
def Plugin.new (version : Nat) (command : List (List Nat))
    (settingsRes : Except Error Settings)
    (userInfoRes : Except Error UserInfo)
    (commandInfoRes : Except Error CommandInfo) : Except Error Plugin := do
  let v ← Version.check (Version.fromPacked version)
  let s ← settingsRes
  let u ← userInfoRes
  let c ← commandInfoRes
  return Plugin.mk v command s u c

/-- A concrete plugin context used by the witnesses: preserve-groups unset,
an explicit runas group set present. -/
def examplePlugin : Plugin :=
  Plugin.mk (Version.mk 1 2) [[108, 115]]
    (Settings.mk [115, 117, 100, 111] [])
    (UserInfo.mk [7, 8] "/home/user")
    (CommandInfo.mk 5 (some [5, 9]) false (some "/tmp"))

/-- A concrete plugin context in the inconsistent state: preserve-groups set
while an explicit runas group set is also present. -/
def inconsistentPlugin : Plugin :=
  Plugin.mk (Version.mk 1 2) []
    (Settings.mk [115, 117, 100, 111] [])
    (UserInfo.mk [7] "/home/user")
    (CommandInfo.mk 5 (some [5]) true none)

/-- C1: the mapping of errors crossing back to the host is exactly:
the `Unauthorized` kind maps to the general-error code for the open
(initialization) callback and the reject code for the logging callbacks;
every other kind maps to the failure code (open) and the error code
(logging); the success / ok codes are returned exactly for `Ok` results,
never for any error. -/
theorem retval_mapping_exact :
    (∀ e : Error,
      (e.kind = ErrorKind.Unauthorized →
        e.as_sudo_io_plugin_open_retval = SUDO_PLUGIN_OPEN_GENERAL_ERROR ∧
        e.as_sudo_io_plugin_log_retval = SUDO_PLUGIN_LOG_REJECT) ∧
      (e.kind ≠ ErrorKind.Unauthorized →
        e.as_sudo_io_plugin_open_retval = SUDO_PLUGIN_OPEN_FAILURE ∧
        e.as_sudo_io_plugin_log_retval = SUDO_PLUGIN_LOG_ERROR)) ∧
    (∀ (T : Type) (r : Except Error T),
      (Result.as_sudo_io_plugin_open_retval r = SUDO_PLUGIN_OPEN_SUCCESS ↔
        ∃ t, r = Except.ok t) ∧
      (Result.as_sudo_io_plugin_log_retval r = SUDO_PLUGIN_LOG_OK ↔
        ∃ t, r = Except.ok t)) := by
  constructor
  · intro e
    obtain ⟨k, c⟩ := e
    cases k <;>
      simp [Error.as_sudo_io_plugin_open_retval,
        Error.as_sudo_io_plugin_log_retval, SUDO_PLUGIN_OPEN_GENERAL_ERROR,
        SUDO_PLUGIN_OPEN_FAILURE, SUDO_PLUGIN_LOG_REJECT,
        SUDO_PLUGIN_LOG_ERROR]
  · intro T r
    cases r with
    | ok t =>
        simp [Result.as_sudo_io_plugin_open_retval,
          Result.as_sudo_io_plugin_log_retval]
    | error e =>
        obtain ⟨k, c⟩ := e
        cases k <;>
          simp [Result.as_sudo_io_plugin_open_retval,
            Result.as_sudo_io_plugin_log_retval,
            Error.as_sudo_io_plugin_open_retval,
            Error.as_sudo_io_plugin_log_retval, SUDO_PLUGIN_OPEN_SUCCESS,
            SUDO_PLUGIN_OPEN_GENERAL_ERROR, SUDO_PLUGIN_OPEN_FAILURE,
            SUDO_PLUGIN_LOG_OK, SUDO_PLUGIN_LOG_REJECT, SUDO_PLUGIN_LOG_ERROR]

/-- Witness for C1 at concrete errors: an `Unauthorized` error yields the
general-error open code, and an `Uninit` error yields the logging error
code. -/
theorem retval_mapping_exact_witness :
    (Error.mk ErrorKind.Unauthorized []).as_sudo_io_plugin_open_retval =
      SUDO_PLUGIN_OPEN_GENERAL_ERROR ∧
    (Error.mk ErrorKind.Uninit []).as_sudo_io_plugin_log_retval =
      SUDO_PLUGIN_LOG_ERROR :=
  ⟨((retval_mapping_exact.1 (Error.mk ErrorKind.Unauthorized [])).1 rfl).1,
   ((retval_mapping_exact.1 (Error.mk ErrorKind.Uninit [])).2 (by decide)).2⟩

/-- C8: two errors with the same kind but different causal chains yield
identical coarse codes at the boundary, for both the initialization and the
logging mapping — the chain never alters the emitted code. -/
theorem chain_independent_retvals (k : ErrorKind) (c1 c2 : List String) :
    (Error.mk k c1).as_sudo_io_plugin_open_retval =
      (Error.mk k c2).as_sudo_io_plugin_open_retval ∧
    (Error.mk k c1).as_sudo_io_plugin_log_retval =
      (Error.mk k c2).as_sudo_io_plugin_log_retval := by
  cases k <;> exact ⟨rfl, rfl⟩

/-- C4: every pairing-extension error converts at the host boundary into the
`Unauthorized` kind, and therefore lands in the general-error (open) and
reject (logging) codes — never in a permissive code. -/
theorem pair_errors_unauthorized (e : PairError) :
    e.toSudoPluginError.kind = ErrorKind.Unauthorized ∧
    e.toSudoPluginError.as_sudo_io_plugin_open_retval =
      SUDO_PLUGIN_OPEN_GENERAL_ERROR ∧
    e.toSudoPluginError.as_sudo_io_plugin_log_retval =
      SUDO_PLUGIN_LOG_REJECT ∧
    e.toSudoPluginError.as_sudo_io_plugin_open_retval ≠
      SUDO_PLUGIN_OPEN_SUCCESS ∧
    e.toSudoPluginError.as_sudo_io_plugin_log_retval ≠ SUDO_PLUGIN_LOG_OK := by
  refine ⟨rfl, rfl, rfl, ?_, ?_⟩ <;>
    simp [PairError.toSudoPluginError, Error.as_sudo_io_plugin_open_retval,
      Error.as_sudo_io_plugin_log_retval, SUDO_PLUGIN_OPEN_GENERAL_ERROR,
      SUDO_PLUGIN_OPEN_SUCCESS, SUDO_PLUGIN_LOG_REJECT, SUDO_PLUGIN_LOG_OK]

/-- C5: when the advertised API version is below the fixed minimum,
`Plugin::new` fails with `UnsupportedApiVersion` whatever the outcomes of the
settings / user_info / command_info extractions would have been — the version
check runs first, so no parsing result is produced — and the error's
diagnostic text carries the minimum required version. -/
theorem new_rejects_unsupported_version (v : Nat) (cmd : List (List Nat))
    (sRes : Except Error Settings) (uRes : Except Error UserInfo)
    (cRes : Except Error CommandInfo)
    (h : Version.ltb (Version.fromPacked v) Version.minimum = true) :
    Plugin.new v cmd sRes uRes cRes =
      Except.error
        (Error.mk (ErrorKind.UnsupportedApiVersion (Version.fromPacked v)) []) ∧
    ∃ a b, (ErrorKind.UnsupportedApiVersion (Version.fromPacked v)).display =
      a ++ Version.minimum.toStr ++ b := by
  constructor
  · have hchk : Version.check (Version.fromPacked v) =
        Except.error
          (Error.mk (ErrorKind.UnsupportedApiVersion (Version.fromPacked v))
            []) := by
      unfold Version.check
      rw [if_pos h]
    unfold Plugin.new
    rw [hchk]
    rfl
  · exact ⟨"sudo called this plugin with an API version of " ++
      (Version.fromPacked v).toStr ++ ", but a minimum of ",
      " is required", rfl⟩

/-- Witness for C5: version 0.0 is below the minimum, and `Plugin::new`
returns the `UnsupportedApiVersion` error even though all three extraction
outcomes were supplied (here as failures of a different kind). -/
theorem new_rejects_unsupported_version_witness :
    Plugin.new 0 [] (Except.error (Error.mk ErrorKind.Uninit []))
        (Except.error (Error.mk ErrorKind.Uninit []))
        (Except.error (Error.mk ErrorKind.Uninit [])) =
      Except.error
        (Error.mk (ErrorKind.UnsupportedApiVersion (Version.fromPacked 0)) []) :=
  (new_rejects_unsupported_version 0 []
    (Except.error (Error.mk ErrorKind.Uninit []))
    (Except.error (Error.mk ErrorKind.Uninit []))
    (Except.error (Error.mk ErrorKind.Uninit [])) (by decide)).1

/-- C2 counterexample: a context with the preserve-groups flag set and an
explicit runas group set also present. The code draws the base set from the
explicit set, so the result differs from the one the claim computes from the
user's group set. -/
theorem runas_gids_preserve_counterexample :
    inconsistentPlugin.command_info.preserve_groups = true ∧
    inconsistentPlugin.runas_gids ≠
      insert inconsistentPlugin.command_info.runas_egid
        inconsistentPlugin.user_info.groups.toFinset := by
  constructor
  · rfl
  · decide

/-- C2 amended: the base set is the explicit runas group set when present —
the preserve-groups flag is not consulted — and the user's group set
otherwise; the code then inserts `runas_egid`. When the flag is set and the
explicit set is absent (the consistent state) this agrees with the original
claim. -/
theorem runas_gids_base_set (p : Plugin) :
    (∀ gs, p.command_info.runas_groups = some gs →
      p.runas_gids = insert p.command_info.runas_egid gs.toFinset) ∧
    (p.command_info.runas_groups = none →
      p.runas_gids =
        insert p.command_info.runas_egid p.user_info.groups.toFinset) := by
  constructor
  · intro gs h
    simp [Plugin.runas_gids, h]
  · intro h
    simp [Plugin.runas_gids, h]

/-- Witness for the amended C2 at a concrete context with an explicit runas
group set. -/
theorem runas_gids_base_set_witness :
    examplePlugin.runas_gids = insert 5 (([5, 9] : List Nat).toFinset) :=
  (runas_gids_base_set examplePlugin).1 [5, 9] rfl

/-- C3: the set returned by `runas_gids` contains `runas_egid`, for every
plugin context — every combination of the preserve-groups flag and of the
explicit runas group set being present or absent. -/
theorem runas_gids_contains_egid (p : Plugin) :
    p.command_info.runas_egid ∈ p.runas_gids := by
  simp [Plugin.runas_gids]

/-- C6: `cwd` returns the `command_info` override when present, else
`user_info`'s working directory; it is a total function with no failure
case. -/
theorem cwd_override_or_user (p : Plugin) :
    (∀ d, p.command_info.cwd = some d → p.cwd = d) ∧
    (p.command_info.cwd = none → p.cwd = p.user_info.cwd) := by
  constructor
  · intro d h
    simp [Plugin.cwd, h]
  · intro h
    simp [Plugin.cwd, h]

/-- Witness for C6 at a concrete context whose `command_info` carries a cwd
override. -/
theorem cwd_override_or_user_witness : examplePlugin.cwd = "/tmp" :=
  (cwd_override_or_user examplePlugin).1 "/tmp" rfl

/-- C7: in a policy-inconsistent state — preserve-groups set with an explicit
runas group set present, or unset with it absent — the computation still
returns the documented fallback set and does not abort. The `debug_assert`
sanity checks are compiled out of release builds, modelled by
`debug_assertions = false`; only debug builds would abort. -/
theorem runas_gids_inconsistent_total (p : Plugin) :
    (p.command_info.preserve_groups = true →
      ∀ gs, p.command_info.runas_groups = some gs →
        p.runas_gids_checked false =
          some (insert p.command_info.runas_egid gs.toFinset)) ∧
    (p.command_info.preserve_groups = false →
      p.command_info.runas_groups = none →
        p.runas_gids_checked false =
          some (insert p.command_info.runas_egid
            p.user_info.groups.toFinset)) := by
  constructor
  · intro _ gs h
    simp [Plugin.runas_gids_checked, Plugin.runas_gids, h]
  · intro _ h
    simp [Plugin.runas_gids_checked, Plugin.runas_gids, h]

/-- Witness for C7 at the concrete inconsistent context. -/
theorem runas_gids_inconsistent_total_witness :
    inconsistentPlugin.runas_gids_checked false =
      some (insert 5 (([5] : List Nat).toFinset)) :=
  (runas_gids_inconsistent_total inconsistentPlugin).1 rfl [5] rfl

/-- C9: when the explicit runas group set is present, the result is exactly
that set united with the singleton of `runas_egid`, whatever the value of the
preserve-groups flag; and the user's group set does not influence the result
— two contexts with the same `command_info` but arbitrary user groups agree. -/
theorem runas_gids_explicit_set_wins (p q : Plugin) :
    (∀ gs, p.command_info.runas_groups = some gs →
      p.runas_gids = gs.toFinset ∪ {p.command_info.runas_egid}) ∧
    (p.command_info = q.command_info →
      p.command_info.runas_groups.isSome = true →
      p.runas_gids = q.runas_gids) := by
  constructor
  · intro gs h
    have hbase : p.runas_gids =
        insert p.command_info.runas_egid gs.toFinset := by
      simp [Plugin.runas_gids, h]
    rw [hbase, Finset.insert_eq, Finset.union_comm]
  · intro hcmd hsome
    obtain ⟨gs, hgs⟩ := Option.isSome_iff_exists.mp hsome
    simp [Plugin.runas_gids, ← hcmd, hgs]

/-- Witness for C9: the explicit set of the example context decides the
result, united with the egid singleton. -/
theorem runas_gids_explicit_set_wins_witness :
    examplePlugin.runas_gids = ([5, 9] : List Nat).toFinset ∪ {5} :=
  (runas_gids_explicit_set_wins examplePlugin examplePlugin).1 [5, 9] rfl

/-- The space-prefixed join underlying the invocation reconstruction: a
single space byte before the first piece followed by the space-joined rest
equals prefixing every piece with one space byte. -/
theorem space_join_eq (f : List Nat) (rest : List (List Nat)) :
    [32] ++ joinBytes 32 (f :: rest) =
      ((f :: rest).map (fun x => [32] ++ x)).flatten := by
  induction rest generalizing f with
  | nil => simp [joinBytes]
  | cons g rest2 ih =>
    calc [32] ++ joinBytes 32 (f :: g :: rest2)
        = [32] ++ (f ++ 32 :: joinBytes 32 (g :: rest2)) := rfl
      _ = ([32] ++ f) ++ ([32] ++ joinBytes 32 (g :: rest2)) := by simp
      _ = ([32] ++ f) ++ ((g :: rest2).map (fun x => [32] ++ x)).flatten := by
            rw [ih]
      _ = ((f :: g :: rest2).map (fun x => [32] ++ x)).flatten := by simp

/-- C10: with an empty flag list and an empty command argument list the
invocation is exactly the program name's bytes; in general it is the program
name followed by each flag and then each command argument, each preceded by
exactly one space byte. -/
theorem invocation_shape (p : Plugin) :
    (p.settings.flags = [] → p.command = [] →
      p.invocation = p.settings.progname) ∧
    p.invocation = p.settings.progname
      ++ (p.settings.flags.map (fun f => [32] ++ f)).flatten
      ++ (p.command.map (fun a => [32] ++ a)).flatten := by
  constructor
  · intro hf hc
    simp [Plugin.invocation, hf, hc]
  · cases hf : p.settings.flags with
    | nil => simp [Plugin.invocation, hf]
    | cons f rest =>
      have h1 : p.invocation =
          p.settings.progname ++ ([32] ++ joinBytes 32 (f :: rest))
            ++ (p.command.map (fun a => [32] ++ a)).flatten := by
        simp [Plugin.invocation, hf, List.append_assoc]
      rw [h1, space_join_eq]

/-- Witness for C10: a context with no flags and no command arguments whose
invocation is exactly the program name bytes. -/
theorem invocation_shape_witness :
    (Plugin.mk (Version.mk 1 2) []
      (Settings.mk [115, 117, 100, 111] [])
      (UserInfo.mk [7] "/")
      (CommandInfo.mk 5 none false none)).invocation =
      [115, 117, 100, 111] :=
  (invocation_shape (Plugin.mk (Version.mk 1 2) []
    (Settings.mk [115, 117, 100, 111] [])
    (UserInfo.mk [7] "/")
    (CommandInfo.mk 5 none false none))).1 rfl rfl

end SudoPair
